import Mathlib

/-!
Formalisation of `WiFiInfoManager` (src/WiFiInfoManager.h, src/WiFiInfoManager.cpp):
a small class that keeps two Wi-Fi credential records (one for acting as an
access point, one for acting as a client) and synchronises the client record
with an EEPROM-backed persistent medium.

Modelling conventions:
* byte buffers (`char` arrays) are `List Nat`, one byte per entry; the C string
  held in a buffer is its prefix up to the first NUL byte (`cstr`);
* the EEPROM collaborator is a `Medium` carrying a begin-success flag, a
  staged (RAM) copy of the reserved region and a durable (`stored`) copy;
  `EEPROM.begin` loads the durable content into the staged copy, `EEPROM.put`
  writes the staged copy, `EEPROM.commit` flushes it durably.  Only
  `wifi_info`-shaped accesses at offset 0 occur in the source, so the region
  is held directly as a `wifi_info`;
* bytes are unsigned, so the erased-cell sentinel test `buf.ssid[0] != 0xFF`
  compares the byte value with 255 (char signedness is implementation-defined
  in C; the comparison is modelled with the documented sentinel meaning);
* the interactive collector `get` is a stub returning `false` in the source.
  `configureWith` abstracts the collector call site of `configure` so that
  properties quantifying over collector behaviour can be stated; `configure`
  instantiates it with the source's `get`.
-/

namespace viawifi

/-- The C string held in a byte buffer: the bytes before the first NUL. -/
def cstr (buf : List Nat) : List Nat := buf.takeWhile (fun b => b ≠ 0)

/-- `strcpy(dst, src)`: the C string in `src` and its terminator are copied
over the front of `dst`; the bytes of `dst` past the terminator are kept. -/
def strcpy (dst src : List Nat) : List Nat :=
  cstr src ++ 0 :: dst.drop ((cstr src).length + 1)

/-- `strcmp` on C strings held in byte buffers; the end of a buffer acts as a
terminator. -/
def strcmp : List Nat → List Nat → Int
  | [], [] => 0
  | [], b :: _ => if b = 0 then 0 else -(b : Int)
  | a :: _, [] => if a = 0 then 0 else (a : Int)
  | a :: xs, b :: ys =>
      if a = b then (if a = 0 then 0 else strcmp xs ys) else (a : Int) - (b : Int)

/-- `struct wifi_info` (WiFiInfoManager.h lines 30-33): `char ssid[33]` and
`char password[64]`. -/
structure wifi_info where
  ssid : List Nat
  password : List Nat
deriving DecidableEq, Repr

/-- `EEPROM_SIZE` (WiFiInfoManager.h line 36). -/
def EEPROM_SIZE : Nat := 97

/-- The persistent medium collaborator.  `beginOk` is whether `EEPROM.begin`
succeeds on this medium, `staged` the RAM copy of the reserved region, and
`stored` its durable content. -/
structure Medium where
  beginOk : Bool
  staged : wifi_info
  stored : wifi_info
deriving DecidableEq, Repr

namespace EEPROM

/-- `EEPROM.begin(size)`: reserve the region; on success the durable content
is loaded into the staged copy. -/
def begin (m : Medium) (size : Nat) : Bool × Medium :=
  if m.beginOk then (true, { m with staged := m.stored }) else (false, m)

/-- `EEPROM.get<wifi_info>(0, buf)`: raw read of the region. -/
def get (m : Medium) : wifi_info := m.staged

/-- `EEPROM.put<wifi_info>(0, rec)`: raw write, staged. -/
def put (m : Medium) (r : wifi_info) : Medium := { m with staged := r }

/-- `EEPROM.commit()`: durably flush the staged content. -/
def commit (m : Medium) : Medium := { m with stored := m.staged }

end EEPROM

/-- The manager state (WiFiInfoManager.h lines 35-39). -/
structure WiFiInfoManager where
  ap_config : wifi_info
  client_config : wifi_info
  is_enable : Bool
deriving DecidableEq, Repr

/-- `WiFiInfoManager() = default`: the two buffers are indeterminate
(arbitrary `a`, `c`), `is_enable` initialised to `false`. -/
def mkManager (a c : wifi_info) : WiFiInfoManager :=
  { ap_config := a, client_config := c, is_enable := false }

/-- `WiFiInfoManager::init` (WiFiInfoManager.cpp lines 72-75). -/
def init (s : WiFiInfoManager) (m : Medium) : Bool × WiFiInfoManager × Medium :=
  let r := EEPROM.begin m EEPROM_SIZE
  (r.1, { s with is_enable := r.1 }, r.2)

/-- `WiFiInfoManager::restore` (WiFiInfoManager.cpp lines 80-90). -/
def restore (s : WiFiInfoManager) (m : Medium) : Bool × WiFiInfoManager × Medium :=
  let r := if s.is_enable then (true, s, m) else init s m
  if !r.1 then (false, r.2.1, r.2.2)
  else
    let buf := EEPROM.get r.2.2
    let cc := r.2.1.client_config
    let cc1 := if buf.ssid.headD 0 ≠ 0xFF then { cc with ssid := strcpy cc.ssid buf.ssid } else cc
    let cc2 := if buf.password.headD 0 ≠ 0xFF then
        { cc1 with password := strcpy cc1.password buf.password }
      else cc1
    (true, { r.2.1 with client_config := cc2 }, r.2.2)

/-- `WiFiInfoManager::store` (WiFiInfoManager.cpp lines 95-103). -/
def store (s : WiFiInfoManager) (m : Medium) : Bool × WiFiInfoManager × Medium :=
  let r := if s.is_enable then (true, s, m) else init s m
  if !r.1 then (false, r.2.1, r.2.2)
  else
    let m1 := EEPROM.put r.2.2 r.2.1.client_config
    let m2 := EEPROM.commit m1
    (true, r.2.1, m2)

/-- `WiFiInfoManager::setAPConfig` (WiFiInfoManager.cpp lines 110-113). -/
def setAPConfig (s : WiFiInfoManager) (ap_ssid ap_password : List Nat) : WiFiInfoManager :=
  { s with ap_config := { ssid := strcpy s.ap_config.ssid ap_ssid,
                          password := strcpy s.ap_config.password ap_password } }

/-- `WiFiInfoManager::setClientConfig` (WiFiInfoManager.cpp lines 119-122). -/
def setClientConfig (s : WiFiInfoManager) (ssid password : List Nat) : WiFiInfoManager :=
  { s with client_config := { ssid := strcpy s.client_config.ssid ssid,
                              password := strcpy s.client_config.password password } }

/-- `WiFiInfoManager::isReady` (WiFiInfoManager.cpp lines 128-130):
`strcmp(client_config.ssid, "") != 0`. -/
def isReady (s : WiFiInfoManager) : Bool := strcmp s.client_config.ssid [] != 0

/-- `WiFiInfoManager::get` (WiFiInfoManager.cpp lines 135-140): the reference
collector is a stub that reports no new credentials and changes nothing. -/
def get (s : WiFiInfoManager) : Bool × WiFiInfoManager := (false, s)

/-- `WiFiInfoManager::configure` (WiFiInfoManager.cpp lines 22-36), with the
collector call site abstracted: `col` stands for the `this->get()` call and
may mutate the in-memory state, per the collector contract. -/
def configureWith (col : WiFiInfoManager → Bool × WiFiInfoManager)
    (s : WiFiInfoManager) (m : Medium) (ap_ssid ap_password : List Nat)
    (is_config : Bool) : Bool × WiFiInfoManager × Medium :=
  let s1 := setAPConfig s ap_ssid ap_password
  let s2 := setClientConfig s1 [] []
  let r := restore s2 m
  if !r.1 then (false, r.2.1, r.2.2)
  else if !is_config && isReady r.2.1 then (true, r.2.1, r.2.2)
  else
    let c := col r.2.1
    if c.1 then
      let w := store c.2 r.2.2
      (false, w.2.1, w.2.2)
    else (false, c.2, r.2.2)

/-- `WiFiInfoManager::configure` as written: the collector is the source's
`get`. -/
def configure (s : WiFiInfoManager) (m : Medium) (ap_ssid ap_password : List Nat)
    (is_config : Bool) : Bool × WiFiInfoManager × Medium :=
  configureWith get s m ap_ssid ap_password is_config

/-- `WiFiInfoManager::getAPSSID` (WiFiInfoManager.cpp lines 42-44); the
returned pointer is observed as the C string it points at. -/
def getAPSSID (s : WiFiInfoManager) : List Nat := cstr s.ap_config.ssid

/-- `WiFiInfoManager::getAPPassword` (WiFiInfoManager.cpp lines 49-51). -/
def getAPPassword (s : WiFiInfoManager) : List Nat := cstr s.ap_config.password

/-- `WiFiInfoManager::getSSID` (WiFiInfoManager.cpp lines 56-58). -/
def getSSID (s : WiFiInfoManager) : List Nat := cstr s.client_config.ssid

/-- `WiFiInfoManager::getPassword` (WiFiInfoManager.cpp lines 63-65). -/
def getPassword (s : WiFiInfoManager) : List Nat := cstr s.client_config.password

/-! Sample data used by witnesses and counterexamples. -/

/-- The bytes of "MyAP" with terminator. -/
def bufA : List Nat := [77, 121, 65, 80, 0]

/-- The bytes of "pass1234" with terminator. -/
def bufP : List Nat := [112, 97, 115, 115, 49, 50, 51, 52, 0]

/-- A record whose two fields hold empty strings. -/
def wiEmpty : wifi_info := { ssid := [0], password := [0] }

/-- A record whose ssid is the one-byte string 0xFF (a non-empty string whose
first byte is the erased-cell sentinel). -/
def wiFF : wifi_info := { ssid := [0xFF, 0], password := [112, 119, 0] }

/-- A working, blank medium. -/
def mBlank : Medium := { beginOk := true, staged := wiEmpty, stored := wiEmpty }

/-- A medium whose initialisation fails. -/
def mDead : Medium := { beginOk := false, staged := wiEmpty, stored := wiEmpty }

/-- A working medium durably holding ssid "Home", password "secretpw". -/
def mHome : Medium :=
  { beginOk := true, staged := wiEmpty,
    stored := { ssid := [72, 111, 109, 101, 0],
                password := [115, 101, 99, 114, 101, 116, 112, 119, 0] } }

/-- A working medium whose persisted ssid field starts with the erased-cell
sentinel 0xFF followed by text bytes, and whose password field is the string
"s". -/
def mSent : Medium :=
  { beginOk := true, staged := wiEmpty,
    stored := { ssid := [0xFF, 72, 105, 0], password := [115, 0] } }

/-- A freshly constructed manager with zeroed buffers. -/
def s0 : WiFiInfoManager := mkManager wiEmpty wiEmpty

/-- A manager whose medium flag is already latched on. -/
def sOn : WiFiInfoManager := { ap_config := wiEmpty, client_config := wiEmpty, is_enable := true }

/-- A fresh manager whose client record is the sentinel-led `wiFF`. -/
def sFF : WiFiInfoManager := { ap_config := wiEmpty, client_config := wiFF, is_enable := false }

/-- A fresh manager whose client record is ssid "Home", password "secretpw". -/
def sHome : WiFiInfoManager :=
  { ap_config := wiEmpty, client_config := mHome.stored, is_enable := false }

/-! Helper lemmas about the byte-buffer primitives. -/

theorem cstr_mem_ne_zero (x : List Nat) : ∀ b ∈ cstr x, b ≠ 0 := by
  intro b hb
  have h := List.mem_takeWhile_imp hb
  exact of_decide_eq_true h

theorem cstr_append_zero (t rest : List Nat) (h : ∀ b ∈ t, b ≠ 0) :
    cstr (t ++ 0 :: rest) = t := by
  induction t with
  | nil => simp [cstr]
  | cons a xs ih =>
    have ha : a ≠ 0 := h a (List.mem_cons_self a xs)
    have hx : ∀ b ∈ xs, b ≠ 0 := fun b hb => h b (List.mem_cons_of_mem a hb)
    simp only [cstr, List.cons_append, List.takeWhile_cons, decide_eq_true ha, if_true]
    exact congrArg (a :: ·) (ih hx)

theorem cstr_strcpy (dst src : List Nat) : cstr (strcpy dst src) = cstr src :=
  cstr_append_zero _ _ (cstr_mem_ne_zero src)

theorem cstr_eq_nil_iff (x : List Nat) : cstr x = [] ↔ x.headD 0 = 0 := by
  cases x with
  | nil => simp [cstr]
  | cons a xs =>
    by_cases ha : a = 0
    · subst ha; simp [cstr, List.takeWhile_cons]
    · simp [cstr, List.takeWhile_cons, ha]

theorem strcmp_nil_eq_zero_iff (x : List Nat) : strcmp x [] = 0 ↔ x.headD 0 = 0 := by
  cases x with
  | nil => simp [strcmp]
  | cons a xs =>
    by_cases ha : a = 0
    · subst ha; simp [strcmp]
    · simp only [strcmp, if_neg ha, List.headD_cons]
      constructor
      · intro h; exact absurd (Int.ofNat_inj.mp h) ha
      · intro h; exact absurd h ha

theorem isReady_eq_true_iff (s : WiFiInfoManager) :
    isReady s = true ↔ s.client_config.ssid.headD 0 ≠ 0 := by
  unfold isReady
  rw [bne_iff_ne, ne_eq, strcmp_nil_eq_zero_iff]

theorem headD_strcpy (dst src : List Nat) : (strcpy dst src).headD 0 = src.headD 0 := by
  cases src with
  | nil => simp [strcpy, cstr]
  | cons a xs =>
    by_cases ha : a = 0
    · subst ha; simp [strcpy, cstr, List.takeWhile_cons]
    · simp [strcpy, cstr, List.takeWhile_cons, ha]

/-- The sentinel-guarded copy step of `restore` (WiFiInfoManager.cpp lines
86-88), factored out for the proofs below. -/
def applyBuf (s : WiFiInfoManager) (buf : wifi_info) : WiFiInfoManager :=
  let cc := s.client_config
  let cc1 := if buf.ssid.headD 0 ≠ 0xFF then { cc with ssid := strcpy cc.ssid buf.ssid } else cc
  let cc2 := if buf.password.headD 0 ≠ 0xFF then
      { cc1 with password := strcpy cc1.password buf.password }
    else cc1
  { s with client_config := cc2 }

theorem restore_spec (s : WiFiInfoManager) (m : Medium) :
    restore s m =
      if s.is_enable then (true, applyBuf s m.staged, m)
      else if m.beginOk then
        (true, applyBuf { s with is_enable := true } m.stored, { m with staged := m.stored })
      else (false, { s with is_enable := false }, m) := by
  unfold restore init EEPROM.begin EEPROM.get applyBuf
  cases hs : s.is_enable <;> cases hb : m.beginOk <;> simp [hs, hb]

theorem store_spec (s : WiFiInfoManager) (m : Medium) :
    store s m =
      if s.is_enable then
        (true, s, { m with staged := s.client_config, stored := s.client_config })
      else if m.beginOk then
        (true, { s with is_enable := true },
         { m with staged := s.client_config, stored := s.client_config })
      else (false, { s with is_enable := false }, m) := by
  unfold store init EEPROM.begin EEPROM.put EEPROM.commit
  cases hs : s.is_enable <;> cases hb : m.beginOk <;> simp [hs, hb]

theorem applyBuf_is_enable (s : WiFiInfoManager) (buf : wifi_info) :
    (applyBuf s buf).is_enable = s.is_enable := by
  unfold applyBuf
  split <;> split <;> rfl

theorem applyBuf_ap_config (s : WiFiInfoManager) (buf : wifi_info) :
    (applyBuf s buf).ap_config = s.ap_config := by
  unfold applyBuf
  split <;> split <;> rfl

theorem applyBuf_ssid (s : WiFiInfoManager) (buf : wifi_info) :
    (applyBuf s buf).client_config.ssid =
      if buf.ssid.headD 0 = 0xFF then s.client_config.ssid
      else strcpy s.client_config.ssid buf.ssid := by
  unfold applyBuf
  by_cases h1 : buf.ssid.headD 0 = 0xFF <;> by_cases h2 : buf.password.headD 0 = 0xFF <;>
    rw [List.headD_eq_head?] at h1 h2 <;> simp [h1, h2]

theorem applyBuf_password (s : WiFiInfoManager) (buf : wifi_info) :
    (applyBuf s buf).client_config.password =
      if buf.password.headD 0 = 0xFF then s.client_config.password
      else strcpy s.client_config.password buf.password := by
  unfold applyBuf
  by_cases h1 : buf.ssid.headD 0 = 0xFF <;> by_cases h2 : buf.password.headD 0 = 0xFF <;>
    rw [List.headD_eq_head?] at h1 h2 <;> simp [h1, h2]

theorem restore_stored_eq (s : WiFiInfoManager) (m : Medium) :
    ((restore s m).2.2).stored = m.stored := by
  rw [restore_spec]
  split_ifs <;> rfl

theorem isReady_applyBuf (s : WiFiInfoManager) (buf : wifi_info)
    (h0 : buf.ssid.headD 0 ≠ 0) (hf : buf.ssid.headD 0 ≠ 0xFF) :
    isReady (applyBuf s buf) = true := by
  rw [isReady_eq_true_iff, applyBuf_ssid, if_neg hf, headD_strcpy]
  exact h0

/-! The claims. -/

/-- Claim C6: `isReady` is true exactly when the client ssid is a non-empty
string, and the password field is never consulted: replacing the password
leaves `isReady` unchanged. -/
theorem isReady_iff_ssid_nonempty :
    (∀ s : WiFiInfoManager, isReady s = true ↔ cstr s.client_config.ssid ≠ [])
  ∧ (∀ (s : WiFiInfoManager) (pw : List Nat),
      isReady { s with client_config := { s.client_config with password := pw } } = isReady s) := by
  constructor
  · intro s
    rw [isReady_eq_true_iff]
    simp only [ne_eq, cstr_eq_nil_iff]
  · intro s pw
    rfl

/-- Claim C2: on a store whose medium flag is not yet latched and a medium
that initialises, `restore` copies the persisted ssid field into
`client_config.ssid` exactly when the field's first byte is not the
erased-cell sentinel 0xFF, and likewise for the password field; a
sentinel-led field leaves the in-memory field unchanged even when the
subsequent bytes look like text. -/
theorem restore_sentinel (s : WiFiInfoManager) (m : Medium)
    (hs : s.is_enable = false) (hb : m.beginOk = true) :
    ((restore s m).2.1.client_config.ssid =
        if m.stored.ssid.headD 0 = 0xFF then s.client_config.ssid
        else strcpy s.client_config.ssid m.stored.ssid)
  ∧ ((restore s m).2.1.client_config.password =
        if m.stored.password.headD 0 = 0xFF then s.client_config.password
        else strcpy s.client_config.password m.stored.password) := by
  have hres : restore s m =
      (true, applyBuf { s with is_enable := true } m.stored, { m with staged := m.stored }) := by
    rw [restore_spec]
    simp [hs, hb]
  rw [hres]
  exact ⟨applyBuf_ssid _ _, applyBuf_password _ _⟩

/-- Witness for C2: an all-zero fresh store against a medium whose persisted
ssid field starts with 0xFF followed by text bytes. -/
theorem restore_sentinel_witness :
    ((restore s0 mSent).2.1.client_config.ssid =
        if mSent.stored.ssid.headD 0 = 0xFF then s0.client_config.ssid
        else strcpy s0.client_config.ssid mSent.stored.ssid)
  ∧ ((restore s0 mSent).2.1.client_config.password =
        if mSent.stored.password.headD 0 = 0xFF then s0.client_config.password
        else strcpy s0.client_config.password mSent.stored.password) :=
  restore_sentinel s0 mSent rfl rfl

/-- Claim C9: the reference collector reports no new credentials and changes
nothing, so `configure` never stores: the durable content of the medium is
unchanged by every `configure` call. -/
theorem configure_preserves_medium :
    (∀ s : WiFiInfoManager, get s = (false, s))
  ∧ (∀ (s : WiFiInfoManager) (m : Medium) (a p : List Nat) (b : Bool),
      ((configure s m a p b).2.2).stored = m.stored) := by
  refine ⟨fun s => rfl, fun s m a p b => ?_⟩
  have hst := restore_stored_eq (setClientConfig (setAPConfig s a p) [] []) m
  simp only [configure, configureWith, get]
  split_ifs with h1 h2 h3 <;> simp_all

/-- Claim C5: when the medium flag is not latched and medium initialisation
fails, `configure` returns false, and the AP record already holds the
supplied inputs. -/
theorem configure_medium_fail_ap_intact (s : WiFiInfoManager) (m : Medium)
    (a p : List Nat) (b : Bool) (hs : s.is_enable = false) (hm : m.beginOk = false) :
    (configure s m a p b).1 = false
  ∧ getAPSSID (configure s m a p b).2.1 = cstr a
  ∧ getAPPassword (configure s m a p b).2.1 = cstr p := by
  have hres : restore (setClientConfig (setAPConfig s a p) [] []) m =
      (false, { setClientConfig (setAPConfig s a p) [] [] with is_enable := false }, m) := by
    rw [restore_spec]
    simp [setAPConfig, setClientConfig, hs, hm]
  simp only [configure, configureWith, hres]
  simp [getAPSSID, getAPPassword, setAPConfig, setClientConfig, cstr_strcpy]

/-- Witness for C5: the spec scenario, `configure("MyAP", "pass1234", false)`
against a dead medium. -/
theorem configure_medium_fail_ap_intact_witness :
    (configure s0 mDead bufA bufP false).1 = false
  ∧ getAPSSID (configure s0 mDead bufA bufP false).2.1 = cstr bufA
  ∧ getAPPassword (configure s0 mDead bufA bufP false).2.1 = cstr bufP :=
  configure_medium_fail_ap_intact s0 mDead bufA bufP false rfl rfl

/-- Claim C10: when `configure` fails because the medium cannot initialise,
the in-memory client record holds the empty strings written by the clearing
step. -/
theorem configure_medium_fail_client_empty (s : WiFiInfoManager) (m : Medium)
    (a p : List Nat) (b : Bool) (hs : s.is_enable = false) (hm : m.beginOk = false) :
    (configure s m a p b).1 = false
  ∧ getSSID (configure s m a p b).2.1 = []
  ∧ getPassword (configure s m a p b).2.1 = [] := by
  have hres : restore (setClientConfig (setAPConfig s a p) [] []) m =
      (false, { setClientConfig (setAPConfig s a p) [] [] with is_enable := false }, m) := by
    rw [restore_spec]
    simp [setAPConfig, setClientConfig, hs, hm]
  have hnil : cstr ([] : List Nat) = [] := rfl
  simp only [configure, configureWith, hres]
  simp [getSSID, getPassword, setAPConfig, setClientConfig, cstr_strcpy, hnil]

/-- Witness for C10: a fresh all-zero store against a dead medium. -/
theorem configure_medium_fail_client_empty_witness :
    (configure s0 mDead bufA bufP true).1 = false
  ∧ getSSID (configure s0 mDead bufA bufP true).2.1 = []
  ∧ getPassword (configure s0 mDead bufA bufP true).2.1 = [] :=
  configure_medium_fail_client_empty s0 mDead bufA bufP true rfl rfl

/-- Claim C1: whenever `configure` reaches the configuration-collector branch
(the restore step succeeded and either the flag forced configuration or the
loaded record was not ready), it returns false, for every collector outcome
and state change. -/
theorem configure_collector_branch_returns_false
    (col : WiFiInfoManager → Bool × WiFiInfoManager)
    (s : WiFiInfoManager) (m : Medium) (a p : List Nat) (b : Bool)
    (ok : Bool) (s3 : WiFiInfoManager) (m1 : Medium)
    (hres : restore (setClientConfig (setAPConfig s a p) [] []) m = (ok, s3, m1))
    (hok : ok = true)
    (hbr : b = true ∨ isReady s3 = false) :
    (configureWith col s m a p b).1 = false := by
  subst hok
  simp only [configureWith, hres]
  rcases hbr with hb1 | hrd
  · subst hb1
    simp only [Bool.not_true, Bool.false_and, Bool.false_eq_true, if_false]
    split <;> rfl
  · simp only [hrd, Bool.and_false, Bool.not_true, Bool.false_eq_true, if_false]
    split <;> rfl

/-- Witness for C1: a collector that reports new credentials, a blank medium
(not ready) and a forcing call. -/
theorem configure_collector_branch_returns_false_witness :
    (restore (setClientConfig (setAPConfig s0 bufA bufP) [] []) mBlank).1 = true
  ∧ (configureWith (fun st => (true, st)) s0 mBlank bufA bufP true).1 = false :=
  ⟨by decide,
   configure_collector_branch_returns_false (fun st => (true, st)) s0 mBlank bufA bufP true
     _ _ _ rfl (by decide) (Or.inl rfl)⟩

/-- Claim C7: when restore succeeds, `configure` with `force_config = true`
always runs the collector: its result is exactly the collector branch applied
to the restored state, with no readiness shortcut consulted. -/
theorem configure_force_invokes_collector
    (col : WiFiInfoManager → Bool × WiFiInfoManager)
    (s : WiFiInfoManager) (m : Medium) (a p : List Nat)
    (ok : Bool) (s3 : WiFiInfoManager) (m1 : Medium)
    (hres : restore (setClientConfig (setAPConfig s a p) [] []) m = (ok, s3, m1))
    (hok : ok = true) :
    configureWith col s m a p true =
      (false, if (col s3).1 then ((store (col s3).2 m1).2.1, (store (col s3).2 m1).2.2)
              else ((col s3).2, m1)) := by
  subst hok
  simp only [configureWith, hres]
  by_cases hc : (col s3).1 = true <;> simp [hc]

/-- Witness for C7: a medium holding a ready record, so the readiness
shortcut would apply, yet a forced call still runs the (identity) collector. -/
theorem configure_force_invokes_collector_witness :
    isReady (restore (setClientConfig (setAPConfig s0 bufA bufP) [] []) mHome).2.1 = true
  ∧ configureWith (fun st => (false, st)) s0 mHome bufA bufP true =
      (false, (restore (setClientConfig (setAPConfig s0 bufA bufP) [] []) mHome).2.1,
              (restore (setClientConfig (setAPConfig s0 bufA bufP) [] []) mHome).2.2) := by
  refine ⟨by decide, ?_⟩
  have h := configure_force_invokes_collector (fun st => (false, st)) s0 mHome bufA bufP
    _ _ _ rfl (by decide)
  simpa using h

/-- Counterexample to C3 as stated: the one-byte string 0xFF is a non-empty
ssid; after persisting it with `store`, a non-forced `configure` on a working
medium returns false, not true, because the restore step treats the field as
erased. -/
theorem configure_ready_counterexample :
    cstr wiFF.ssid ≠ []
  ∧ ((store sFF mBlank).2.2).beginOk = true
  ∧ (configure s0 (store sFF mBlank).2.2 bufA bufP false).1 = false := by
  decide

/-- Claim C3 (amended: the persisted ssid's first byte must also not be the
erased-cell sentinel 0xFF): if the medium initialises and durably holds a
client record with non-empty, non-sentinel-led ssid, a non-forced `configure`
returns true and the durable record is unchanged. -/
theorem configure_ready_true (s : WiFiInfoManager) (m : Medium) (a p : List Nat)
    (hinv : s.is_enable = true → m.staged = m.stored)
    (hb : m.beginOk = true)
    (h0 : m.stored.ssid.headD 0 ≠ 0)
    (hf : m.stored.ssid.headD 0 ≠ 0xFF) :
    (configure s m a p false).1 = true
  ∧ ((configure s m a p false).2.2).stored = m.stored := by
  cases hs : s.is_enable with
  | true =>
    have hst := hinv hs
    have hres : restore (setClientConfig (setAPConfig s a p) [] []) m =
        (true, applyBuf (setClientConfig (setAPConfig s a p) [] []) m.stored, m) := by
      rw [restore_spec]
      simp [setAPConfig, setClientConfig, hs, hst]
    have hrd := isReady_applyBuf (setClientConfig (setAPConfig s a p) [] []) m.stored h0 hf
    simp only [configure, configureWith, hres]
    simp [hrd]
  | false =>
    have hres : restore (setClientConfig (setAPConfig s a p) [] []) m =
        (true,
         applyBuf { setClientConfig (setAPConfig s a p) [] [] with is_enable := true } m.stored,
         { m with staged := m.stored }) := by
      rw [restore_spec]
      simp [setAPConfig, setClientConfig, hs, hb]
    have hrd := isReady_applyBuf
      { setClientConfig (setAPConfig s a p) [] [] with is_enable := true } m.stored h0 hf
    simp only [configure, configureWith, hres]
    simp [hrd]

/-- Witness for C3: a fresh store against a medium durably holding
ssid "Home". -/
theorem configure_ready_true_witness :
    (configure s0 mHome bufA bufP false).1 = true
  ∧ ((configure s0 mHome bufA bufP false).2.2).stored = mHome.stored :=
  configure_ready_true s0 mHome bufA bufP (by intro h; cases h) rfl (by decide) (by decide)

/-- Counterexample to C4 as stated: the one-byte string 0xFF fits the bounded
field sizes, yet storing it and restoring on a fresh instance sharing the
medium does not reproduce it — the restore step treats the sentinel-led field
as erased. -/
theorem store_restore_roundtrip_counterexample :
    (cstr wiFF.ssid).length ≤ 32
  ∧ (cstr wiFF.password).length ≤ 63
  ∧ cstr ((restore (mkManager wiEmpty wiEmpty)
        ((store sFF mBlank).2.2)).2.1.client_config.ssid) ≠ cstr wiFF.ssid := by
  decide

/-- Claim C4 (amended: the stored strings' first bytes must also not be the
erased-cell sentinel 0xFF): storing a client record and restoring it on a
fresh instance sharing the same medium reproduces the identical ssid and
password strings. -/
theorem store_restore_roundtrip (s f : WiFiInfoManager) (m : Medium)
    (hb : m.beginOk = true)
    (hlen1 : (cstr s.client_config.ssid).length ≤ 32)
    (hlen2 : (cstr s.client_config.password).length ≤ 63)
    (hs1 : s.client_config.ssid.headD 0 ≠ 0xFF)
    (hs2 : s.client_config.password.headD 0 ≠ 0xFF)
    (hf : f.is_enable = false) :
    cstr ((restore f (store s m).2.2).2.1.client_config.ssid) = cstr s.client_config.ssid
  ∧ cstr ((restore f (store s m).2.2).2.1.client_config.password)
      = cstr s.client_config.password := by
  have hm2 : (store s m).2.2 = { m with staged := s.client_config, stored := s.client_config } := by
    rw [store_spec]
    cases hse : s.is_enable <;> simp [hse, hb]
  have hres : restore f { m with staged := s.client_config, stored := s.client_config } =
      (true, applyBuf { f with is_enable := true } s.client_config,
       { m with staged := s.client_config, stored := s.client_config }) := by
    rw [restore_spec]
    simp [hf, hb]
  rw [hm2, hres]
  constructor
  · rw [show (applyBuf { f with is_enable := true } s.client_config).client_config.ssid =
        if s.client_config.ssid.headD 0 = 0xFF then f.client_config.ssid
        else strcpy f.client_config.ssid s.client_config.ssid from applyBuf_ssid _ _,
      if_neg hs1, cstr_strcpy]
  · rw [show (applyBuf { f with is_enable := true } s.client_config).client_config.password =
        if s.client_config.password.headD 0 = 0xFF then f.client_config.password
        else strcpy f.client_config.password s.client_config.password from applyBuf_password _ _,
      if_neg hs2, cstr_strcpy]

/-- Claim C8: `is_enable` is a latch: it is false at construction, it is set
(to the begin outcome) only by the lazy `init` attempt reached from `restore`
or `store` when still unset, the in-memory mutators and the stub collector
leave it untouched, and once true no operation clears it. -/
theorem is_enable_latch :
    (∀ a c : wifi_info, (mkManager a c).is_enable = false)
  ∧ (∀ (s : WiFiInfoManager) (m : Medium), (init s m).2.1.is_enable = m.beginOk)
  ∧ (∀ (s : WiFiInfoManager) (m : Medium), s.is_enable = false →
        (restore s m).2.1.is_enable = m.beginOk ∧ (store s m).2.1.is_enable = m.beginOk)
  ∧ (∀ (s : WiFiInfoManager) (m : Medium), s.is_enable = true →
        (restore s m).2.1.is_enable = true ∧ (store s m).2.1.is_enable = true)
  ∧ (∀ (s : WiFiInfoManager) (a p : List Nat),
        (setAPConfig s a p).is_enable = s.is_enable
      ∧ (setClientConfig s a p).is_enable = s.is_enable
      ∧ (get s).2.is_enable = s.is_enable)
  ∧ (∀ (s : WiFiInfoManager) (m : Medium) (a p : List Nat) (b : Bool),
        s.is_enable = true → (configure s m a p b).2.1.is_enable = true) := by
  refine ⟨fun a c => rfl, ?_, ?_, ?_, fun s a p => ⟨rfl, rfl, rfl⟩, ?_⟩
  · intro s m
    cases hb : m.beginOk <;> simp [init, EEPROM.begin, hb]
  · intro s m hs
    cases hb : m.beginOk <;>
      simp [restore_spec, store_spec, hs, hb, applyBuf_is_enable]
  · intro s m hs
    simp [restore_spec, store_spec, hs, applyBuf_is_enable]
  · intro s m a p b hs
    have hen : (setClientConfig (setAPConfig s a p) [] []).is_enable = true := by
      simp [setAPConfig, setClientConfig, hs]
    have hres : restore (setClientConfig (setAPConfig s a p) [] []) m =
        (true, applyBuf (setClientConfig (setAPConfig s a p) [] []) m.staged, m) := by
      rw [restore_spec]
      simp [hen]
    have hab : (applyBuf (setClientConfig (setAPConfig s a p) [] []) m.staged).is_enable = true := by
      rw [applyBuf_is_enable]; exact hen
    simp only [configure, configureWith, hres, get]
    split_ifs <;> simp_all [hab]

/-- Witness for C8: the restore/store conjuncts at a fresh store with a
working medium, and the configure conjunct at a latched-on store with a dead
medium. -/
theorem is_enable_latch_witness :
    ((restore s0 mBlank).2.1.is_enable = mBlank.beginOk
      ∧ (store s0 mBlank).2.1.is_enable = mBlank.beginOk)
  ∧ ((restore sOn mDead).2.1.is_enable = true ∧ (store sOn mDead).2.1.is_enable = true)
  ∧ (configure sOn mDead bufA bufP false).2.1.is_enable = true :=
  ⟨is_enable_latch.2.2.1 s0 mBlank rfl,
   is_enable_latch.2.2.2.1 sOn mDead rfl,
   is_enable_latch.2.2.2.2.2 sOn mDead bufA bufP false rfl⟩

/-- Witness for C4: round trip of ssid "Home", password "secretpw" through a
blank working medium onto a fresh all-zero instance. -/
theorem store_restore_roundtrip_witness :
    cstr ((restore s0 (store sHome mBlank).2.2).2.1.client_config.ssid)
      = cstr sHome.client_config.ssid
  ∧ cstr ((restore s0 (store sHome mBlank).2.2).2.1.client_config.password)
      = cstr sHome.client_config.password :=
  store_restore_roundtrip sHome s0 mBlank rfl
    (by decide) (by decide) (by decide) (by decide) rfl

end viawifi
